import Mathlib

/-!
Shallow embedding of `src/spt_client.py` (class `SpotifyClient`) and proofs
about its four fetch operations.

The HTTP layer is modelled by passing the server response explicitly: each
operation takes its request arguments together with an `HttpResponse` value
(status code plus parsed JSON body) and returns `Except PyExc result`,
mirroring the Python control flow including the exceptions the code can
raise.  Two Python-level failure modes are part of the embedding because the
source code triggers them:

* `sorted(artist_list, key=..., reversed=True)` on line 57 passes the
  misspelled keyword `reversed` (the builtin accepts only `reverse`), so the
  call raises `TypeError` as soon as it is evaluated, i.e. whenever the
  popularity branch runs on a non-empty list;
* in the `name` and `popularity` branches, when the artists array is empty
  the guard `if artist_list:` skips the assignment of `results`, and the
  final `return results` raises `UnboundLocalError`.
-/

namespace SpotifyClient

/-- Exceptions the Python code can raise: the custom
`SpotifyClientException`, plus the two builtin exceptions the defective
branches of `get_multiple_artists_data` trigger. -/
inductive PyExc where
  | spotifyClientException (message : String)
  | typeError (message : String)
  | unboundLocalError (message : String)
deriving DecidableEq, Repr

/-- A server response as the client sees it: the HTTP status code and the
already-parsed JSON body of type `α`. -/
structure HttpResponse (α : Type) where
  status_code : Nat
  json : α
deriving DecidableEq, Repr

/-- An element of the `artists` array: the fields the code accesses
(`name`, `popularity`) plus `id` and an uninterpreted remainder standing for
any further JSON fields, so that whole objects can be compared. -/
structure ArtistObj where
  id : String
  name : String
  popularity : Int
  rest : List (String × String)
deriving DecidableEq, Repr

/-- Body shape expected by `get_multiple_artists_data`. -/
structure ArtistsBody where
  artists : List ArtistObj
deriving DecidableEq, Repr

/-- An element of the `items` array of the albums endpoint. -/
structure AlbumItem where
  name : String
  rest : List (String × String)
deriving DecidableEq, Repr

/-- Body shape expected by `get_artist_albums_titles`. -/
structure AlbumsBody where
  items : List AlbumItem
deriving DecidableEq, Repr

/-- An element of the `tracks` array of the top-tracks endpoint. -/
structure TrackItem where
  name : String
  popularity : Int
  rest : List (String × String)
deriving DecidableEq, Repr

/-- Body shape expected by `get_best_songs`. -/
structure TracksBody where
  tracks : List TrackItem
deriving DecidableEq, Repr

/-- Python `sorted(l, key=key)`: stable ascending sort by the key, modelled
with insertion sort (stable, and sortedness and permutation lemmas are
available for it). -/
def pySorted {α β : Type} [LinearOrder β] (key : α → β) (l : List α) : List α :=
  letI : DecidableRel (fun a b : α => key a ≤ key b) :=
    fun a b => inferInstanceAs (Decidable (key a ≤ key b))
  List.insertionSort (fun a b => key a ≤ key b) l

/-- Embedding of `SpotifyClient.get_artist_data`.  The body is polymorphic:
on a 200 response the parsed JSON is returned unchanged, whatever it is. -/
def get_artist_data {α : Type} (artist_id : String) (res : HttpResponse α) :
    Except PyExc α :=
  if res.status_code ≠ 200 then
    .error (.spotifyClientException "Improper client id or service unavailable")
  else
    .ok res.json

/-- Embedding of `SpotifyClient.get_multiple_artists_data`.  The status
check comes first; then the `sort_by` dispatch.  In the `popularity` branch
the call `sorted(..., reversed=True)` raises `TypeError` (misspelled
keyword) whenever it is reached, i.e. when the list is non-empty; in both
the `name` and `popularity` branches an empty list skips the assignment of
`results` and `return results` raises `UnboundLocalError`. -/
def get_multiple_artists_data (ids : List String) (sort_by : String)
    (res : HttpResponse ArtistsBody) : Except PyExc (List ArtistObj) :=
  let _payload := String.intercalate "," ids
  if res.status_code ≠ 200 then
    .error (.spotifyClientException "Improper client id or service unavailable")
  else if sort_by = "default" then
    .ok res.json.artists
  else if sort_by = "name" then
    let artist_list := res.json.artists
    if artist_list.isEmpty then
      .error (.unboundLocalError "local variable results referenced before assignment")
    else
      .ok (pySorted (fun item => item.name) artist_list)
  else if sort_by = "popularity" then
    let artist_list := res.json.artists
    if artist_list.isEmpty then
      .error (.unboundLocalError "local variable results referenced before assignment")
    else
      .error (.typeError "reversed is an invalid keyword argument for sorted")
  else
    .error (.spotifyClientException "Improper value of sort_by")

/-- Embedding of `SpotifyClient.get_artist_albums_titles`: project the
`name` field of every entry of `items`, in order.  `quantity` only goes
into the request query string; it plays no part in processing the body. -/
def get_artist_albums_titles (artist_id : String) (quantity : Nat)
    (res : HttpResponse AlbumsBody) : Except PyExc (List String) :=
  let _payload := quantity
  if res.status_code ≠ 200 then
    .error (.spotifyClientException "Improper client id or service unavailable")
  else
    .ok (res.json.items.map (fun item => item.name))

/-- Embedding of `SpotifyClient.get_best_songs`: project each entry of
`tracks` to the pair (name, popularity), in server order, with no sort. -/
def get_best_songs (artist_id : String) (country : String)
    (res : HttpResponse TracksBody) : Except PyExc (List (String × Int)) :=
  let _payload := country
  if res.status_code ≠ 200 then
    .error (.spotifyClientException "Improper client id or country code or service unavailable")
  else
    .ok (res.json.tracks.map (fun item => (item.name, item.popularity)))

/-- Boolean test: did the computation raise the custom client exception
(`SpotifyClientException`), as opposed to succeeding or raising a builtin
exception? -/
def isClientErrorB {α : Type} : Except PyExc α → Bool
  | .error (.spotifyClientException _) => true
  | _ => false

instance : IsTotal ArtistObj (fun a b => a.name ≤ b.name) :=
  ⟨fun a b => le_total a.name b.name⟩

instance : IsTrans ArtistObj (fun a b => a.name ≤ b.name) :=
  ⟨fun _ _ _ hab hbc => le_trans hab hbc⟩

/-- C1: for every fetch operation and every HTTP response whose status is
not 200, the operation raises the client exception and returns no partial
result: the response body (quantified over arbitrarily) is never
inspected. -/
theorem c1_non200_raises_clientError {α : Type}
    (artist_id : String) (ids : List String) (sort_by : String)
    (quantity : Nat) (country : String)
    (resA : HttpResponse α) (resB : HttpResponse ArtistsBody)
    (resC : HttpResponse AlbumsBody) (resD : HttpResponse TracksBody)
    (hA : resA.status_code ≠ 200) (hB : resB.status_code ≠ 200)
    (hC : resC.status_code ≠ 200) (hD : resD.status_code ≠ 200) :
    get_artist_data artist_id resA =
      .error (.spotifyClientException "Improper client id or service unavailable") ∧
    get_multiple_artists_data ids sort_by resB =
      .error (.spotifyClientException "Improper client id or service unavailable") ∧
    get_artist_albums_titles artist_id quantity resC =
      .error (.spotifyClientException "Improper client id or service unavailable") ∧
    get_best_songs artist_id country resD =
      .error (.spotifyClientException "Improper client id or country code or service unavailable") := by
  refine ⟨?_, ?_, ?_, ?_⟩
  · simp [get_artist_data, hA]
  · simp [get_multiple_artists_data, hB]
  · simp [get_artist_albums_titles, hC]
  · simp [get_best_songs, hD]

/-- Witness for C1 at a concrete 404 response for each operation. -/
theorem c1_non200_raises_clientError_witness :
    get_artist_data "badid" (⟨404, ⟨"i", "N", 0, []⟩⟩ : HttpResponse ArtistObj) =
      .error (.spotifyClientException "Improper client id or service unavailable") ∧
    get_multiple_artists_data ["a"] "default" (⟨404, ⟨[]⟩⟩ : HttpResponse ArtistsBody) =
      .error (.spotifyClientException "Improper client id or service unavailable") ∧
    get_artist_albums_titles "badid" 10 (⟨404, ⟨[]⟩⟩ : HttpResponse AlbumsBody) =
      .error (.spotifyClientException "Improper client id or service unavailable") ∧
    get_best_songs "badid" "PL" (⟨404, ⟨[]⟩⟩ : HttpResponse TracksBody) =
      .error (.spotifyClientException "Improper client id or country code or service unavailable") :=
  c1_non200_raises_clientError "badid" ["a"] "default" 10 "PL"
    ⟨404, ⟨"i", "N", 0, []⟩⟩ ⟨404, ⟨[]⟩⟩ ⟨404, ⟨[]⟩⟩ ⟨404, ⟨[]⟩⟩
    (by decide) (by decide) (by decide) (by decide)

/-- C6: on every 200 response, get_artist_data returns the parsed JSON body
unchanged, whatever its shape: the operation is the identity transform on
the parsed body. -/
theorem c6_fetchArtist_identity {α : Type} (artist_id : String)
    (res : HttpResponse α) (h : res.status_code = 200) :
    get_artist_data artist_id res = .ok res.json := by
  simp [get_artist_data, h]

/-- Witness for C6 at a concrete artist profile. -/
theorem c6_fetchArtist_identity_witness :
    get_artist_data "3qm84nBOXUEQ2vnTfUTTFC"
      (⟨200, ⟨"3qm84nBOXUEQ2vnTfUTTFC", "Guns N Roses", 82, []⟩⟩ : HttpResponse ArtistObj) =
      .ok ⟨"3qm84nBOXUEQ2vnTfUTTFC", "Guns N Roses", 82, []⟩ :=
  c6_fetchArtist_identity "3qm84nBOXUEQ2vnTfUTTFC"
    (⟨200, ⟨"3qm84nBOXUEQ2vnTfUTTFC", "Guns N Roses", 82, []⟩⟩ : HttpResponse ArtistObj) rfl

/-- C7: on every 200 response, get_artist_albums_titles returns exactly the
name field of each entry of the items array, in order; the result does not
depend on the requested quantity, so the client performs no local
truncation. -/
theorem c7_album_titles_projection (artist_id : String)
    (quantity quantity' : Nat) (res : HttpResponse AlbumsBody)
    (h : res.status_code = 200) :
    get_artist_albums_titles artist_id quantity res =
      .ok (res.json.items.map (fun item => item.name)) ∧
    get_artist_albums_titles artist_id quantity res =
      get_artist_albums_titles artist_id quantity' res := by
  constructor <;> simp [get_artist_albums_titles, h]

/-- Witness for C7: three album items, quantity 2 versus 10, no
truncation. -/
theorem c7_album_titles_projection_witness :
    get_artist_albums_titles "art1" 2
      (⟨200, ⟨[⟨"One", []⟩, ⟨"Two", []⟩, ⟨"Three", []⟩]⟩⟩ : HttpResponse AlbumsBody) =
      .ok ["One", "Two", "Three"] ∧
    get_artist_albums_titles "art1" 2
      (⟨200, ⟨[⟨"One", []⟩, ⟨"Two", []⟩, ⟨"Three", []⟩]⟩⟩ : HttpResponse AlbumsBody) =
    get_artist_albums_titles "art1" 10
      (⟨200, ⟨[⟨"One", []⟩, ⟨"Two", []⟩, ⟨"Three", []⟩]⟩⟩ : HttpResponse AlbumsBody) :=
  c7_album_titles_projection "art1" 2 10
    ⟨200, ⟨[⟨"One", []⟩, ⟨"Two", []⟩, ⟨"Three", []⟩]⟩⟩ rfl

/-- C8: on every 200 response, get_best_songs returns the (name,
popularity) pair of each entry of the tracks array, in exactly the server
order, with no local re-sorting. -/
theorem c8_top_tracks_projection (artist_id country : String)
    (res : HttpResponse TracksBody) (h : res.status_code = 200) :
    get_best_songs artist_id country res =
      .ok (res.json.tracks.map (fun item => (item.name, item.popularity))) := by
  simp [get_best_songs, h]

/-- Witness for C8: two tracks in non-sorted server order are returned in
that same order. -/
theorem c8_top_tracks_projection_witness :
    get_best_songs "art1" "PL"
      (⟨200, ⟨[⟨"Low", 3, []⟩, ⟨"High", 99, []⟩]⟩⟩ : HttpResponse TracksBody) =
      .ok [("Low", 3), ("High", 99)] :=
  c8_top_tracks_projection "art1" "PL" ⟨200, ⟨[⟨"Low", 3, []⟩, ⟨"High", 99, []⟩]⟩⟩ rfl

/-- C10: in get_multiple_artists_data the status check precedes the sort_by
validation: any non-200 response raises the service-unavailable client
exception whatever sort_by is, even an unrecognized value. -/
theorem c10_status_check_precedes_sort_validation
    (ids : List String) (sort_by : String) (res : HttpResponse ArtistsBody)
    (h : res.status_code ≠ 200) :
    get_multiple_artists_data ids sort_by res =
      .error (.spotifyClientException "Improper client id or service unavailable") := by
  simp [get_multiple_artists_data, h]

/-- Witness for C10: a 404 response together with an unrecognized sort_by
still yields the service-unavailable message. -/
theorem c10_status_check_precedes_sort_validation_witness :
    get_multiple_artists_data ["a"] "bogus" (⟨404, ⟨[]⟩⟩ : HttpResponse ArtistsBody) =
      .error (.spotifyClientException "Improper client id or service unavailable") :=
  c10_status_check_precedes_sort_validation ["a"] "bogus" ⟨404, ⟨[]⟩⟩ (by decide)

/-- C3: on every 200 response with a non-empty artists array, the name sort
succeeds, the output is ordered non-decreasingly by the name field, and it
is a permutation of the raw artists array. -/
theorem c3_name_sort_sorted_perm (ids : List String)
    (res : HttpResponse ArtistsBody) (h : res.status_code = 200)
    (hne : res.json.artists ≠ []) :
    ∃ out, get_multiple_artists_data ids "name" res = .ok out ∧
      List.Sorted (fun a b : ArtistObj => a.name ≤ b.name) out ∧
      out.Perm res.json.artists := by
  have hE : res.json.artists.isEmpty = false := by
    cases hl : res.json.artists with
    | nil => exact absurd hl hne
    | cons a l => rfl
  refine ⟨pySorted (fun item => item.name) res.json.artists, ?_, ?_, ?_⟩
  · simp [get_multiple_artists_data, h, hE]
  · exact List.sorted_insertionSort _ _
  · exact List.perm_insertionSort _ _

/-- Witness for C3: two artists supplied in reverse name order. -/
theorem c3_name_sort_sorted_perm_witness :
    ∃ out, get_multiple_artists_data ["a", "b"] "name"
        (⟨200, ⟨[⟨"b", "Zeta", 3, []⟩, ⟨"a", "Alpha", 7, []⟩]⟩⟩ : HttpResponse ArtistsBody) =
        .ok out ∧
      List.Sorted (fun a b : ArtistObj => a.name ≤ b.name) out ∧
      out.Perm [⟨"b", "Zeta", 3, []⟩, ⟨"a", "Alpha", 7, []⟩] :=
  c3_name_sort_sorted_perm ["a", "b"]
    (⟨200, ⟨[⟨"b", "Zeta", 3, []⟩, ⟨"a", "Alpha", 7, []⟩]⟩⟩ : HttpResponse ArtistsBody)
    rfl (by decide)

/-- C2 (failing input): on a 200 response whose artists have popularity
10 and 90, the sort-by-popularity path does not return the artists ordered
by popularity: the misspelled keyword makes the sort call raise TypeError,
so the operation fails. -/
theorem c2_popularity_sort_crashes_at_failing_input :
    get_multiple_artists_data ["a", "b"] "popularity"
      (⟨200, ⟨[⟨"a", "A", 10, []⟩, ⟨"b", "B", 90, []⟩]⟩⟩ : HttpResponse ArtistsBody) =
      .error (.typeError "reversed is an invalid keyword argument for sorted") :=
  rfl

/-- C4 (failing input): on a 200 response with an empty artists array, the
name sort does not return the empty sequence: the assignment of results is
skipped and the return statement raises UnboundLocalError. -/
theorem c4_name_sort_empty_raises_unboundLocal :
    get_multiple_artists_data ["a"] "name"
      (⟨200, ⟨[]⟩⟩ : HttpResponse ArtistsBody) =
      .error (.unboundLocalError "local variable results referenced before assignment") :=
  rfl

/-- C5 counterexample: the sort-by-popularity path does not complete
normally on a concrete 200 response with a non-empty artists array, so it
cannot return any ascending-sorted result. -/
theorem c5_counterexample :
    (get_multiple_artists_data ["x", "y"] "popularity"
      (⟨200, ⟨[⟨"x", "Xa", 5, []⟩, ⟨"y", "Yb", 1, []⟩]⟩⟩ : HttpResponse ArtistsBody)).isOk
      = false := by
  decide

/-- C5 amended: on every 200 response with a non-empty artists array, the
sort-by-popularity path raises TypeError, because the sort routine is
called with the misspelled keyword reversed; it never completes and never
returns a sorted list. -/
theorem c5_popularity_branch_raises_typeError (ids : List String)
    (res : HttpResponse ArtistsBody) (h : res.status_code = 200)
    (hne : res.json.artists ≠ []) :
    get_multiple_artists_data ids "popularity" res =
      .error (.typeError "reversed is an invalid keyword argument for sorted") := by
  have hE : res.json.artists.isEmpty = false := by
    cases hl : res.json.artists with
    | nil => exact absurd hl hne
    | cons a l => rfl
  simp [get_multiple_artists_data, h, hE]

/-- Witness for the amended C5 at a concrete two-artist response. -/
theorem c5_popularity_branch_raises_typeError_witness :
    get_multiple_artists_data ["c", "d"] "popularity"
      (⟨200, ⟨[⟨"c", "Ca", 4, []⟩, ⟨"d", "Da", 6, []⟩]⟩⟩ : HttpResponse ArtistsBody) =
      .error (.typeError "reversed is an invalid keyword argument for sorted") :=
  c5_popularity_branch_raises_typeError ["c", "d"]
    (⟨200, ⟨[⟨"c", "Ca", 4, []⟩, ⟨"d", "Da", 6, []⟩]⟩⟩ : HttpResponse ArtistsBody)
    rfl (by decide)

/-- C9 counterexample: the recognized sort option popularity does not
succeed on a concrete 200 response with a non-empty artists array, so the
set of succeeding sort_by values is not the complement of the set of
raising ones. -/
theorem c9_counterexample :
    ("popularity" = "default" ∨ "popularity" = "name" ∨ "popularity" = "popularity") ∧
    (get_multiple_artists_data ["p", "q"] "popularity"
      (⟨200, ⟨[⟨"p", "Pp", 2, []⟩, ⟨"q", "Qq", 8, []⟩]⟩⟩ : HttpResponse ArtistsBody)).isOk
      = false := by
  decide

/-- C9 amended: on every 200 response, get_multiple_artists_data raises the
client exception exactly when sort_by is outside the recognized set
(default, name, popularity); recognized values never raise the client
exception, though they may still fail with a builtin exception. -/
theorem c9_clientError_iff_unrecognized (ids : List String) (sort_by : String)
    (res : HttpResponse ArtistsBody) (h : res.status_code = 200) :
    isClientErrorB (get_multiple_artists_data ids sort_by res) = true ↔
      (sort_by ≠ "default" ∧ sort_by ≠ "name" ∧ sort_by ≠ "popularity") := by
  by_cases h1 : sort_by = "default"
  · subst h1
    simp [get_multiple_artists_data, h, isClientErrorB]
  · by_cases h2 : sort_by = "name"
    · subst h2
      cases hE : res.json.artists.isEmpty <;>
        simp [get_multiple_artists_data, h, h1, hE, isClientErrorB]
    · by_cases h3 : sort_by = "popularity"
      · subst h3
        cases hE : res.json.artists.isEmpty <;>
          simp [get_multiple_artists_data, h, h1, h2, hE, isClientErrorB]
      · simp [get_multiple_artists_data, h, h1, h2, h3, isClientErrorB]

/-- Witness for the amended C9 with the unrecognized value bogus. -/
theorem c9_clientError_iff_unrecognized_witness :
    isClientErrorB (get_multiple_artists_data ["w"] "bogus"
        (⟨200, ⟨[]⟩⟩ : HttpResponse ArtistsBody)) = true ↔
      ("bogus" ≠ "default" ∧ "bogus" ≠ "name" ∧ "bogus" ≠ "popularity") :=
  c9_clientError_iff_unrecognized ["w"] "bogus"
    (⟨200, ⟨[]⟩⟩ : HttpResponse ArtistsBody) rfl

end SpotifyClient
